import Mathlib

set_option maxRecDepth 40000

/-!
Verification of the WeekendTutor backend's core logic: the `/analyze`
student-response classifier, the `/process` prompt builder, and the
image-analysis tutorial-mode detector and learning-step parser.

The definitions below are a shallow embedding of the JavaScript source
(`src/backend/routes/learningRoutes.js` controller functions
`analyzeStudentResponse` / `processLearningResponse`, and the image
controller's `analyzeImage`).  JS strings become `String`, JSON numbers
become `Int`, optional / possibly-`undefined` request fields become
`Option _`, and the external OpenAI completion call is abstracted as an
explicit `ProviderMessage` argument: each endpoint is modelled as a pure
function of its request body and of the provider's reply, returning an
outcome that records the HTTP status, the exact prompt that would be sent
to the provider (so "no provider call" is visible in the model), and the
JSON response body.  File-system side effects (image/audio storage) and
the network transport are outside the embedded fragment.
-/

/-! ## JavaScript primitive helpers -/

/-- ASCII lowercasing, as performed both by `String.prototype.toLowerCase`
and by the `i` flag of the JS regexes in this code (all inputs of interest
are ASCII; `Char.toLower` only folds ASCII letters, which matches). -/
def lowerStr (s : String) : String := String.mk (s.data.map Char.toLower)

/-- The characters matched by the JS regex class `\s` (ASCII part:
space, tab, line feed, vertical tab, form feed, carriage return).
`String.prototype.trim` strips the same class. -/
def isSpaceJS (c : Char) : Bool :=
  c = ' ' || c = '\t' || c = '\n' || c = '\x0B' || c = '\x0C' || c = '\r'

/-- JS truthiness test for a request-body field expected to be a string:
an absent (`undefined`/`null`) field and the empty string are falsy. -/
def jsFalsy : Option String → Bool
  | none => true
  | some s => s = ""

/-- Template-literal interpolation of a possibly-absent string field:
`undefined` interpolates as the text "undefined". -/
def jsInterpS : Option String → String
  | none => "undefined"
  | some s => s

/-- Template-literal interpolation of a possibly-absent integer field. -/
def jsInterpI : Option Int → String
  | none => "undefined"
  | some n => toString n

/-- The JS comparison `a >= b` on request-body numbers: if either operand
is `undefined` the comparison involves `NaN` and is `false`. -/
def jsGE : Option Int → Option Int → Bool
  | some a, some b => decide (b ≤ a)
  | some _, none => false
  | none, _ => false

/-- `parseInt` on a non-empty all-digit capture (the only way it is called
here: the capture of `(\d+)`): the decimal value of the digit string.
(We ignore IEEE-754 rounding of astronomically long digit strings.) -/
def parseIntNat (s : String) : Nat :=
  s.data.foldl (fun n c => n * 10 + (c.toNat - '0'.toNat)) 0

/-- `String.prototype.trim`: strip leading and trailing whitespace. -/
def jsTrim (s : String) : String :=
  String.mk (((s.data.dropWhile isSpaceJS).reverse.dropWhile isSpaceJS).reverse)

/-- Helper for `splitNl`. -/
def splitNlAux : List Char → List Char → List String
  | [], acc => [String.mk acc.reverse]
  | c :: cs, acc =>
    if c = '\n' then String.mk acc.reverse :: splitNlAux cs []
    else splitNlAux cs (c :: acc)

/-- `String.prototype.split('\n')`. -/
def splitNl (s : String) : List String := splitNlAux s.data []

/-- Case-insensitive literal matching: `matchCI pat l` succeeds when the
lowercased head of `l` starts with `pat` (given in lowercase), returning
the remaining characters. -/
def matchCI : List Char → List Char → Option (List Char)
  | [], rest => some rest
  | _ :: _, [] => none
  | p :: ps, c :: cs => if c.toLower = p then matchCI ps cs else none

/-- Exact prefix test on character lists. -/
def isPre : List Char → List Char → Bool
  | [], _ => true
  | _ :: _, [] => false
  | p :: ps, c :: cs => p = c && isPre ps cs

/-- Substring occurrence test on character lists. -/
def hasSub (p : List Char) : List Char → Bool
  | [] => p.isEmpty
  | c :: cs => isPre p (c :: cs) || hasSub p cs

/-- Case-insensitive containment of the (lowercase) literal `pat` in
`text`; this is exactly what a JS regex `/lit/i` with a literal-only
pattern tests. -/
def containsCI (pat text : String) : Bool := hasSub pat.data (lowerStr text).data

/-! ## `/analyze` — `analyzeStudentResponse` (learningRoutes.js)

The fallback classifier applies `text.match(/correct:\s*(true|false)/i)`
and `text.match(/confusion:\s*(\d+)/i)`.  Both regexes are a literal,
then `\s*`, then a token starting with a non-whitespace character, so the
backtracking search is equivalent to: at each position (leftmost first)
match the literal case-insensitively, skip the maximal whitespace run,
then match the token; the capture is group 1 verbatim. -/

/-- Try `/correct:\s*(true|false)/i` anchored at the head of `l`;
returns the verbatim capture (`true`/`false` in original case). -/
def tryCorrectAt (l : List Char) : Option String :=
  match matchCI "correct:".data l with
  | none => none
  | some r1 =>
    let r2 := r1.dropWhile isSpaceJS
    match matchCI "true".data r2 with
    | some _ => some (String.mk (r2.take 4))
    | none =>
      match matchCI "false".data r2 with
      | some _ => some (String.mk (r2.take 5))
      | none => none

/-- Leftmost match of `/correct:\s*(true|false)/i`. -/
def scanCorrect : List Char → Option String
  | [] => none
  | c :: cs =>
    match tryCorrectAt (c :: cs) with
    | some cap => some cap
    | none => scanCorrect cs

/-- `analysisText.match(/correct:\s*(true|false)/i)`, as the capture of
group 1 (or `none` when the whole match fails). -/
def isCorrectMatch (text : String) : Option String := scanCorrect text.data

/-- Try `/confusion:\s*(\d+)/i` anchored at the head of `l`;
returns the digit-string capture. -/
def tryConfusionAt (l : List Char) : Option String :=
  match matchCI "confusion:".data l with
  | none => none
  | some r1 =>
    let r2 := r1.dropWhile isSpaceJS
    let ds := r2.takeWhile Char.isDigit
    if ds.isEmpty then none else some (String.mk ds)

/-- Leftmost match of `/confusion:\s*(\d+)/i`. -/
def scanConfusion : List Char → Option String
  | [] => none
  | c :: cs =>
    match tryConfusionAt (c :: cs) with
    | some cap => some cap
    | none => scanConfusion cs

/-- `analysisText.match(/confusion:\s*(\d+)/i)`, as the capture of
group 1 (or `none` when the whole match fails). -/
def confusionMatch (text : String) : Option String := scanConfusion text.data

/-- The typed content of a structured function-call payload, per the
schema sent with the request (`required: is_correct, confusion_level,
feedback`; `misconceptions` optional — `none` models an absent key). -/
structure FunctionCallPayload where
  is_correct : Bool
  confusion_level : Int
  misconceptions : Option (List String)
  feedback : String
deriving DecidableEq

/-- A provider reply: either `message.function_call` is present (with its
parsed `arguments`), or only the free-text `message.content` is. -/
inductive ProviderMessage where
  | functionCall (payload : FunctionCallPayload)
  | content (text : String)
deriving DecidableEq

/-- The `analysisResult` object built by `analyzeStudentResponse`;
`misconceptions = none` models the key being absent from the object
(and hence from the spread JSON response). -/
structure AnalysisResult where
  is_correct : Bool
  confusion_level : Int
  misconceptions : Option (List String)
  feedback : String
deriving DecidableEq

/-- The `if (response.data.choices[0].message.function_call) … else …`
block of `analyzeStudentResponse`: structured payload taken verbatim,
otherwise the regex fallback with defaults `false` / `5` and the full
text as `feedback`. -/
def classifyProviderReply : ProviderMessage → AnalysisResult
  | ProviderMessage.functionCall p =>
    ⟨p.is_correct, p.confusion_level, p.misconceptions, p.feedback⟩
  | ProviderMessage.content analysisText =>
    { is_correct :=
        match isCorrectMatch analysisText with
        | some cap => lowerStr cap == "true"
        | none => false
      confusion_level :=
        match confusionMatch analysisText with
        | some cap => (parseIntNat cap : Int)
        | none => 5
      misconceptions := none
      feedback := analysisText }

/-- Body of `POST /analyze` (fields as destructured in the source). -/
structure AnalyzeRequestBody where
  studentResponse : Option String
  context : Option String
  subject : Option String
  currentStep : Option Int
  totalSteps : Option Int
deriving DecidableEq

/-- The JSON error body `{ success, message }`. -/
structure ErrorBody where
  success : Bool
  message : String
deriving DecidableEq

/-- JSON body of a successful `/analyze` response:
`{ success: true, ...analysisResult }`. -/
structure AnalyzeResponseBody where
  success : Bool
  is_correct : Bool
  confusion_level : Int
  misconceptions : Option (List String)
  feedback : String
deriving DecidableEq

/-- Outcome of `analyzeStudentResponse`: a `badRequest` is returned
before any provider interaction (it records no prompt); a `success`
records the system prompt and user content that were sent to the
provider, plus the HTTP 200 JSON body. -/
inductive AnalyzeOutcome where
  | badRequest (status : Nat) (body : ErrorBody)
  | success (status : Nat) (sentSystemPrompt sentUserContent : String)
      (body : AnalyzeResponseBody)
deriving DecidableEq

def analyzeChunk0 : String := "\n      You are an AI educational assistant analyzing a student\x27s response.\n      \n      IMPORTANT: Never provide direct answers to educational problems. Instead, provide hints and guidance.\n      \n      The student is working on step "
def analyzeChunk1 : String := " of "
def analyzeChunk2 : String := " in a "
def analyzeChunk3 : String := " problem.\n      \n      The context of this step is: \""
def analyzeChunk4 : String := "\"\n      \n      Analyze their response based on:\n      1. Correctness (is the student on the right track?)\n      2. Confusion level (how confused do they seem, on a scale of 0-10?)\n      3. Any specific misconceptions\n      \n      Return your analysis as structured feedback that:\n      - Encourages what they did right\n      - Offers a HINT (not the answer) for areas of confusion\n      - Asks a guiding question to help them reach the next step themselves\n      \n      Remember: Your goal is to help them learn and think for themselves, not to solve the problem for them.\n    "

/-- The `/analyze` system prompt template literal, with its four
interpolations already rendered to strings. -/
def analyzeSystemPrompt (currentStepS totalStepsS subjectS contextS : String) : String :=
  analyzeChunk0 ++ currentStepS ++ analyzeChunk1 ++ totalStepsS ++ analyzeChunk2 ++
    subjectS ++ analyzeChunk3 ++ contextS ++ analyzeChunk4

/-- The `analyzeStudentResponse` controller, as a function of the request
body and of the provider's reply. -/
def analyzeStudentResponse (b : AnalyzeRequestBody) (reply : ProviderMessage) :
    AnalyzeOutcome :=
  if jsFalsy b.studentResponse || jsFalsy b.context then
    AnalyzeOutcome.badRequest 400 ⟨false, "Student response and context are required"⟩
  else
    let systemPrompt := analyzeSystemPrompt (jsInterpI b.currentStep)
      (jsInterpI b.totalSteps) (jsInterpS b.subject) (jsInterpS b.context)
    let userContent := "Student\x27s response: \"" ++ jsInterpS b.studentResponse ++ "\""
    let r := classifyProviderReply reply
    AnalyzeOutcome.success 200 systemPrompt userContent
      ⟨true, r.is_correct, r.confusion_level, r.misconceptions, r.feedback⟩

/-! ## `/process` — `processLearningResponse` (learningRoutes.js)

The four `switch (response_type)` template literals, the final-step
addendum, and the endpoint.  Each template is the source's template
literal split at its `interpolation` sites. -/

def hintChunk0 : String := "\n          You are an AI tutor helping a student with a "
def hintChunk1 : String := " problem.\n          \n          The student is on step "
def hintChunk2 : String := " of "
def hintChunk3 : String := ".\n          \n          Current context: \""
def hintChunk4 : String := "\"\n          \n          The student has responded and needs a HINT to move forward. Do NOT give them the answer!\n          \n          Your response should:\n          1. Acknowledge their answer with specific encouragement\n          2. Provide a gentle hint that guides them in the right direction\n          3. Ask a thought-provoking question that helps them discover the next step themselves\n          4. Use age-appropriate language and examples\n          \n          Important guidelines:\n          - NEVER solve the problem for them\n          - Focus on process and thinking skills\n          - Build confidence through guided discovery\n          - Keep your response friendly, encouraging, and concise\n        "

/-- The `case 'hint'` template. -/
def hintTemplate (subjectS csS tsS ctxS : String) : String :=
  hintChunk0 ++ subjectS ++ hintChunk1 ++ csS ++ hintChunk2 ++ tsS ++ hintChunk3 ++
    ctxS ++ hintChunk4

def clarChunk0 : String := "\n          You are an AI tutor helping a confused student with a "
def clarChunk1 : String := " problem.\n          \n          The student is on step "
def clarChunk2 : String := " of "
def clarChunk3 : String := " and seems confused.\n          \n          Current context: \""
def clarChunk4 : String := "\"\n          \n          Your response should:\n          1. Reassure them that confusion is part of learning\n          2. Clarify the concept they\x27re struggling with using simple examples\n          3. Break down the step into smaller, more manageable parts\n          4. Provide a structured approach to help them get unstuck\n          \n          Important guidelines:\n          - Use very clear, simple language\n          - Explain concepts in multiple ways\n          - Use metaphors or visual examples when possible\n          - Keep your response patient, kind, and supportive\n        "

/-- The `case 'clarification'` template. -/
def clarificationTemplate (subjectS csS tsS ctxS : String) : String :=
  clarChunk0 ++ subjectS ++ clarChunk1 ++ csS ++ clarChunk2 ++ tsS ++ clarChunk3 ++
    ctxS ++ clarChunk4

def encChunk0 : String := "\n          You are an AI tutor celebrating a student\x27s progress with a "
def encChunk1 : String := " problem.\n          \n          The student is on step "
def encChunk2 : String := " of "
def encChunk3 : String := " and has provided a good answer.\n          \n          Current context: \""
def encChunk4 : String := "\"\n          \n          Your response should:\n          1. Provide specific praise for what they did well\n          2. Reinforce the concept they just demonstrated\n          3. Connect this knowledge to the bigger picture\n          4. Present the next challenge with enthusiasm\n          \n          Important guidelines:\n          - Be genuinely excited about their progress\n          - Highlight specific aspects of their thinking that were effective\n          - Build momentum and curiosity for the next step\n          - Keep your response upbeat and motivating\n        "

/-- The `case 'encouragement'` template. -/
def encouragementTemplate (subjectS csS tsS ctxS : String) : String :=
  encChunk0 ++ subjectS ++ encChunk1 ++ csS ++ encChunk2 ++ tsS ++ encChunk3 ++
    ctxS ++ encChunk4

def defChunk0 : String := "\n          You are an AI tutor helping a student with a "
def defChunk1 : String := " problem.\n          \n          The student is on step "
def defChunk2 : String := " of "
def defChunk3 : String := ".\n          \n          Current context: \""
def defChunk4 : String := "\"\n          \n          Provide guidance that helps them learn, but never give direct answers.\n        "

/-- The `default:` template. -/
def defaultTemplate (subjectS csS tsS ctxS : String) : String :=
  defChunk0 ++ subjectS ++ defChunk1 ++ csS ++ defChunk2 ++ tsS ++ defChunk3 ++
    ctxS ++ defChunk4

/-- The fixed final-step addendum appended by
`if (isFinalStep) systemPrompt +=  …`. -/
def finalStepAddendum : String := "\n        This is the FINAL STEP in the learning process.\n        \n        In addition to your regular guidance:\n        1. Summarize what they\x27ve learned through this process\n        2. Celebrate their accomplishment\n        3. Suggest how they might apply this knowledge\n        4. End with a positive, encouraging note\n      "

/-- The `switch (response_type)` statement: each case `break`s after a
single assignment, so it is a first-match if/else chain with the
`default` template for every unrecognized value. -/
def selectTemplate (response_type subjectS csS tsS ctxS : String) : String :=
  if response_type = "hint" then hintTemplate subjectS csS tsS ctxS
  else if response_type = "clarification" then clarificationTemplate subjectS csS tsS ctxS
  else if response_type = "encouragement" then encouragementTemplate subjectS csS tsS ctxS
  else defaultTemplate subjectS csS tsS ctxS

/-- The complete system prompt of `processLearningResponse`: the selected
template, then the final-step addendum exactly when `isFinalStep`. -/
def buildProcessSystemPrompt (response_type subjectS csS tsS ctxS : String)
    (isFinalStep : Bool) : String :=
  selectTemplate response_type subjectS csS tsS ctxS ++
    (if isFinalStep then finalStepAddendum else "")

/-- Body of `POST /process` (fields as destructured in the source; the
destructuring default `response_type = 'hint'` is applied in the endpoint
below, so the raw field is kept optional here). -/
structure ProcessRequestBody where
  message : Option String
  user_query : Option String
  subject : Option String
  current_step : Option Int
  total_steps : Option Int
  context : Option String
  response_type : Option String
deriving DecidableEq

/-- JSON body of a successful `/process` response. -/
structure ProcessResponseBody where
  success : Bool
  next_step : String
  is_final_step : Bool
  context : String
deriving DecidableEq

/-- Outcome of `processLearningResponse`; as for `/analyze`, a
`badRequest` records no prompt because no provider call happens. -/
inductive ProcessOutcome where
  | badRequest (status : Nat) (body : ErrorBody)
  | success (status : Nat) (sentSystemPrompt sentUserContent : String)
      (body : ProcessResponseBody)
deriving DecidableEq

/-- The `processLearningResponse` controller, as a function of the
request body and of the provider's reply text
(`response.data.choices[0].message.content`). -/
def processLearningResponse (b : ProcessRequestBody) (replyText : String) :
    ProcessOutcome :=
  if jsFalsy b.message || jsFalsy b.subject then
    ProcessOutcome.badRequest 400 ⟨false, "Student message and subject are required"⟩
  else
    let response_type := b.response_type.getD "hint"
    let isFinalStep := jsGE b.current_step b.total_steps
    let systemPrompt := buildProcessSystemPrompt response_type (jsInterpS b.subject)
      (jsInterpI b.current_step) (jsInterpI b.total_steps) (jsInterpS b.context) isFinalStep
    let userContent := "Original question: \"" ++ jsInterpS b.user_query ++
      "\"\n\nStudent\x27s message: \"" ++ jsInterpS b.message ++ "\""
    let updatedContext := jsInterpS b.context ++ "\n\nStudent: " ++
      jsInterpS b.message ++ "\n\nTutor: " ++ replyText
    ProcessOutcome.success 200 systemPrompt userContent
      ⟨true, replyText, isFinalStep, updatedContext⟩

/-! ## Image analysis — `analyzeImage` (src/unnamed/part_000)

Tutorial-mode detection tests the nine regexes of
`educationalContentPatterns` against the vision reply.  Each pattern is a
case-insensitive literal or a literal with a trailing optional / small
alternation, so each is equivalent to containment of one or two
lowercase literals:
  `/math problem/i` … `/homework/i`, `/problem to solve/i`,
  `/steps to follow/i` — plain containment;
  `/read(ing)?/i` — matches iff the text contains "read" (the optional
  group cannot affect matchability);
  `/writ(ing|e)/i` — matches iff the text contains "writing" or "write". -/

def mathProblemPat (t : String) : Bool := containsCI "math problem" t
def equationPat (t : String) : Bool := containsCI "equation" t
def scienceQuestionPat (t : String) : Bool := containsCI "science question" t
def experimentPat (t : String) : Bool := containsCI "experiment" t
def readPat (t : String) : Bool := containsCI "read" t
def writPat (t : String) : Bool := containsCI "writing" t || containsCI "write" t
def homeworkPat (t : String) : Bool := containsCI "homework" t
def problemToSolvePat (t : String) : Bool := containsCI "problem to solve" t
def stepsToFollowPat (t : String) : Bool := containsCI "steps to follow" t

/-- The `educationalContentPatterns` array, in source order. -/
def educationalContentPatterns : List (String → Bool) :=
  [mathProblemPat, equationPat, scienceQuestionPat, experimentPat, readPat,
   writPat, homeworkPat, problemToSolvePat, stepsToFollowPat]

/-- `educationalContentPatterns.some(pattern => pattern.test(analysis))`. -/
def shouldEnterTutorialMode (analysis : String) : Bool :=
  educationalContentPatterns.any (fun pattern => pattern analysis)

/-!
Step extraction runs `stepsText.match(/\d+\.\s+[^\n]+/g)`.  The global
scan reports, left to right, each leftmost non-overlapping match and then
resumes after it.  A single match at a position is: the maximal digit run
(`\d+` can never give back a digit usefully, since `.` is not a digit),
then a literal `.`, then `\s+[^\n]+` with backtracking.  Because any
character after a maximal `\s+` run is non-whitespace (hence not `\n`),
backtracking only arises when the whitespace run ends the string; the
engine then hands whitespace back to `[^\n]+` one character at a time,
succeeding at the largest split index `k ≥ 1` whose character is not
`\n`, after which the greedy `[^\n]+` eats up to the next `\n` (here:
exactly that one character, as everything beyond the last non-`\n`
whitespace character is `\n`). -/

/-- Largest index of a character other than `'\n'` in `l`. -/
def lastNonNl (l : List Char) : Option Nat :=
  (List.range l.length).foldl
    (fun acc i => if l.getD i ' ' ≠ '\n' then some i else acc) none

/-- Match `/\d+\.\s+[^\n]+/` anchored at the head of `l`: returns the
matched characters and the total number of characters consumed. -/
def matchStepAt (l : List Char) : Option (List Char × Nat) :=
  let ds := l.takeWhile Char.isDigit
  if ds.isEmpty then none
  else
    match l.drop ds.length with
    | '.' :: r2 =>
      let ws := r2.takeWhile isSpaceJS
      if ws.isEmpty then none
      else
        match r2.drop ws.length with
        | [] =>
          match lastNonNl ws with
          | some k =>
            if 1 ≤ k then
              some (ds ++ '.' :: ws.take (k + 1), ds.length + 1 + (k + 1))
            else none
          | none => none
        | c :: rest =>
          let body := c :: rest.takeWhile (fun ch => ch ≠ '\n')
          some (ds ++ '.' :: (ws ++ body), ds.length + 1 + ws.length + body.length)
    | _ => none

/-- Fuel-indexed global scan (the fuel is the remaining text length, so
with initial fuel `l.length` it never runs out: every iteration consumes
at least one character). -/
def scanStepsFuel : Nat → List Char → List String
  | 0, _ => []
  | _, [] => []
  | fuel + 1, c :: cs =>
    match matchStepAt (c :: cs) with
    | some (m, n) => String.mk m :: scanStepsFuel fuel ((c :: cs).drop n)
    | none => scanStepsFuel fuel cs

/-- `stepsText.match(/\d+\.\s+[^\n]+/g)`: the list of all matches in
order (`[]` models the JS `null` result of a match-less text). -/
def stepMatches (stepsText : String) : List String :=
  scanStepsFuel stepsText.data.length stepsText.data

/-- The `learningSteps` computed from the secondary completion:
`stepMatches.map(step => step.trim())` when the regex matched, else
`stepsText.split('\n').filter(line => line.trim().length > 0).slice(0, 5)`. -/
def learningSteps (stepsText : String) : List String :=
  if stepMatches stepsText ≠ [] then (stepMatches stepsText).map jsTrim
  else ((splitNl stepsText).filter (fun line => 0 < (jsTrim line).length)).take 5

/-- `let learningSteps = []; if (shouldEnterTutorialMode) { … }`:
the steps included in the `/analyze` (image) response, as a function of
the vision reply `analysis` and of the secondary completion `stepsText`
(the secondary call only happens in tutorial mode). -/
def analyzeImageLearningSteps (analysis stepsText : String) : List String :=
  if shouldEnterTutorialMode analysis then learningSteps stepsText else []

/-- JSON body of a successful image `/analyze` response (the audio URL,
which depends on file-system state and a timestamp, is outside the
embedded fragment). -/
structure ImageAnalysisResponseBody where
  success : Bool
  response : String
  should_enter_tutorial_mode : Bool
  learning_context : String
  learning_steps : List String
deriving DecidableEq

/-- Outcome of the image `analyzeImage` controller. -/
inductive ImageOutcome where
  | badRequest (status : Nat) (body : ErrorBody)
  | success (status : Nat) (body : ImageAnalysisResponseBody)
deriving DecidableEq

/-- The image `analyzeImage` controller, as a function of the request's
`image_url` and of the two provider replies. -/
def analyzeImage (image_url : Option String) (analysis stepsText : String) :
    ImageOutcome :=
  if jsFalsy image_url then
    ImageOutcome.badRequest 400 ⟨false, "Image URL is required"⟩
  else
    ImageOutcome.success 200
      ⟨true, analysis, shouldEnterTutorialMode analysis, analysis,
        analyzeImageLearningSteps analysis stepsText⟩


/-! ## Claim theorems -/

/-- C1: For a provider reply with no structured function-call payload,
`analyzeStudentResponse` derives the result from the free text alone:
`is_correct` is true exactly when the leftmost match of
`/correct:\s*(true|false)/i` captures `true` (false when there is no
match), `confusion_level` is the integer captured by
`/confusion:\s*(\d+)/i` (5 when there is no match), and `feedback` is the
full text verbatim. -/
theorem c1_fallback_classification :
    (∀ text : String,
      ((classifyProviderReply (ProviderMessage.content text)).is_correct = true ↔
        ∃ cap, isCorrectMatch text = some cap ∧ lowerStr cap = "true")
      ∧ (classifyProviderReply (ProviderMessage.content text)).confusion_level =
          (match confusionMatch text with
           | some cap => (parseIntNat cap : Int)
           | none => 5)
      ∧ (classifyProviderReply (ProviderMessage.content text)).feedback = text)
    ∧ classifyProviderReply (ProviderMessage.content "correct: true\nconfusion: 7\nkeep going") =
        ⟨true, 7, none, "correct: true\nconfusion: 7\nkeep going"⟩ := by
  refine ⟨fun text => ⟨?_, ?_, rfl⟩, by decide⟩
  · cases hm : isCorrectMatch text with
    | none => simp [classifyProviderReply, hm]
    | some cap => simp [classifyProviderReply, hm, beq_iff_eq]
  · cases hm : confusionMatch text with
    | none => simp [classifyProviderReply, hm]
    | some cap => simp [classifyProviderReply, hm]

/-- C2: The final-step addendum is appended to the built system prompt
exactly when `current_step >= total_steps`, regardless of the selected
template, and the returned `is_final_step` flag equals the same
comparison. -/
theorem c2_final_step_addendum :
    ∀ (rt sS cS tS xS : String) (cs ts : Int),
      ((∃ base, buildProcessSystemPrompt rt sS cS tS xS (jsGE (some cs) (some ts)) =
          base ++ finalStepAddendum ∧ base = selectTemplate rt sS cS tS xS) ↔ ts ≤ cs)
      ∧ jsGE (some cs) (some ts) = decide (ts ≤ cs)
      ∧ (∀ (b : ProcessRequestBody) (replyText : String),
          b.current_step = some cs → b.total_steps = some ts →
          jsFalsy b.message = false → jsFalsy b.subject = false →
          ∃ sp uc ctx2, processLearningResponse b replyText =
            ProcessOutcome.success 200 sp uc ⟨true, replyText, decide (ts ≤ cs), ctx2⟩) := by
  intro rt sS cS tS xS cs ts
  refine ⟨?_, rfl, ?_⟩
  · by_cases h : ts ≤ cs
    · refine ⟨fun _ => h, fun _ => ⟨selectTemplate rt sS cS tS xS, ?_, rfl⟩⟩
      simp [buildProcessSystemPrompt, jsGE, h]
    · refine ⟨?_, fun hc => absurd hc h⟩
      rintro ⟨base, heq, hbase⟩
      exfalso
      subst hbase
      simp [buildProcessSystemPrompt, jsGE, h, String.append_empty] at heq
      have hlen := congrArg String.length heq
      rw [String.length_append] at hlen
      have hpos : 0 < finalStepAddendum.length := by decide
      omega
  · intro b replyText hcs hts hm hs
    have heq : processLearningResponse b replyText =
        ProcessOutcome.success 200
          (buildProcessSystemPrompt (b.response_type.getD "hint") (jsInterpS b.subject)
            (jsInterpI b.current_step) (jsInterpI b.total_steps) (jsInterpS b.context)
            (jsGE b.current_step b.total_steps))
          ("Original question: \"" ++ jsInterpS b.user_query ++
            "\"\n\nStudent\x27s message: \"" ++ jsInterpS b.message ++ "\"")
          ⟨true, replyText, decide (ts ≤ cs), jsInterpS b.context ++ "\n\nStudent: " ++
            jsInterpS b.message ++ "\n\nTutor: " ++ replyText⟩ := by
      simp [processLearningResponse, hm, hs, hcs, hts, jsGE]
    exact ⟨_, _, _, heq⟩

/-- C2 witness at `current_step = total_steps = 2`. -/
theorem c2_final_step_addendum_witness :
    ∃ sp uc ctx2, processLearningResponse
        ⟨some "hi", none, some "math", some 2, some 2, none, none⟩ "ok" =
      ProcessOutcome.success 200 sp uc ⟨true, "ok", decide ((2 : Int) ≤ 2), ctx2⟩ :=
  (c2_final_step_addendum "hint" "math" "2" "2" "undefined" 2 2).2.2
    ⟨some "hi", none, some "math", some 2, some 2, none, none⟩ "ok" rfl rfl
    (by decide) (by decide)

/-- C3: Every `response_type` outside hint/clarification/encouragement
selects the default template, and the built system prompt is always a
non-empty string (the builder never errors). -/
theorem c3_unrecognized_defaults :
    ∀ (rt sS cS tS xS : String) (fin : Bool),
      (rt ≠ "hint" → rt ≠ "clarification" → rt ≠ "encouragement" →
        selectTemplate rt sS cS tS xS = defaultTemplate sS cS tS xS)
      ∧ buildProcessSystemPrompt rt sS cS tS xS fin ≠ "" := by
  intro rt sS cS tS xS fin
  constructor
  · intro h1 h2 h3
    simp [selectTemplate, h1, h2, h3]
  · have hpos : 0 < (selectTemplate rt sS cS tS xS).length := by
      have h0 : 0 < hintChunk0.length := by decide
      have h1 : 0 < clarChunk0.length := by decide
      have h2 : 0 < encChunk0.length := by decide
      have h3 : 0 < defChunk0.length := by decide
      rw [selectTemplate]
      split
      · simp only [hintTemplate, String.length_append]; omega
      · split
        · simp only [clarificationTemplate, String.length_append]; omega
        · split
          · simp only [encouragementTemplate, String.length_append]; omega
          · simp only [defaultTemplate, String.length_append]; omega
    have hpos2 : 0 < (buildProcessSystemPrompt rt sS cS tS xS fin).length := by
      rw [buildProcessSystemPrompt, String.length_append]
      omega
    intro hempty
    rw [hempty] at hpos2
    exact absurd hpos2 (by decide)

/-- C3 witness at the unrecognized value "banana". -/
theorem c3_unrecognized_defaults_witness :
    selectTemplate "banana" "math" "1" "3" "ctx" = defaultTemplate "math" "1" "3" "ctx"
    ∧ buildProcessSystemPrompt "banana" "math" "1" "3" "ctx" false ≠ "" :=
  ⟨(c3_unrecognized_defaults "banana" "math" "1" "3" "ctx" false).1
      (by decide) (by decide) (by decide),
   (c3_unrecognized_defaults "banana" "math" "1" "3" "ctx" false).2⟩

/-- C4 counterexample: a fallback reply "confusion: 99" yields
`confusion_level = 99`, outside the range 0..10 — the code never clamps. -/
theorem c4_confusion_range_cex :
    (classifyProviderReply (ProviderMessage.content "confusion: 99")).confusion_level = 99
    ∧ ¬((classifyProviderReply
        (ProviderMessage.content "confusion: 99")).confusion_level ≤ 10) := by
  decide

/-- C4 amended: in the fallback path `confusion_level` is 5 when the
confusion pattern does not match and otherwise the parsed (non-negative,
unbounded) integer; a structured payload's `confusion_level` is passed
through unchanged.  No clamping to [0,10] occurs. -/
theorem c4_confusion_passthrough :
    ∀ text : String,
      (confusionMatch text = none →
        (classifyProviderReply (ProviderMessage.content text)).confusion_level = 5)
      ∧ (∀ cap, confusionMatch text = some cap →
          (classifyProviderReply (ProviderMessage.content text)).confusion_level =
            (parseIntNat cap : Int))
      ∧ 0 ≤ (classifyProviderReply (ProviderMessage.content text)).confusion_level
      ∧ (∀ p : FunctionCallPayload,
          (classifyProviderReply (ProviderMessage.functionCall p)).confusion_level =
            p.confusion_level) := by
  intro text
  refine ⟨?_, ?_, ?_, fun p => rfl⟩
  · intro h; simp [classifyProviderReply, h]
  · intro cap h; simp [classifyProviderReply, h]
  · cases hm : confusionMatch text with
    | none => simp [classifyProviderReply, hm]
    | some cap => simp [classifyProviderReply, hm]

/-- C4 witness: a reply with no confusion marker defaults to 5. -/
theorem c4_confusion_passthrough_witness :
    (classifyProviderReply (ProviderMessage.content "no markers here")).confusion_level = 5 :=
  (c4_confusion_passthrough "no markers here").1 (by decide)

/-- C5 counterexample: when the provider output supplies no
misconceptions, the result carries no `misconceptions` field at all
(`none`), not an empty sequence (`some []`) — both in the fallback and in
the structured path. -/
theorem c5_misconceptions_cex :
    (classifyProviderReply (ProviderMessage.content "hello")).misconceptions ≠ some []
    ∧ (classifyProviderReply
        (ProviderMessage.functionCall ⟨true, 3, none, "ok"⟩)).misconceptions ≠ some [] := by
  decide

/-- C5 amended: when the provider output supplies no misconceptions, the
result omits the `misconceptions` field entirely (the fallback always
does; the structured path passes absence through). -/
theorem c5_misconceptions_absent :
    (∀ text : String,
      (classifyProviderReply (ProviderMessage.content text)).misconceptions = none)
    ∧ (∀ p : FunctionCallPayload, p.misconceptions = none →
        (classifyProviderReply (ProviderMessage.functionCall p)).misconceptions = none) :=
  ⟨fun _ => rfl, fun _ h => h⟩

/-- C5 witness: a structured payload without misconceptions. -/
theorem c5_misconceptions_absent_witness :
    (classifyProviderReply
      (ProviderMessage.functionCall ⟨true, 3, none, "ok"⟩)).misconceptions = none :=
  c5_misconceptions_absent.2 ⟨true, 3, none, "ok"⟩ rfl

/-- C6: Tutorial-mode detection returns true exactly when at least one of
the nine case-insensitive patterns matches anywhere in the analysis text;
"This is a math problem" yields true and "Here is a cute drawing of a
cat" yields false. -/
theorem c6_tutorial_detection :
    (∀ t : String, shouldEnterTutorialMode t = true ↔
      (mathProblemPat t = true ∨ equationPat t = true ∨ scienceQuestionPat t = true ∨
       experimentPat t = true ∨ readPat t = true ∨ writPat t = true ∨
       homeworkPat t = true ∨ problemToSolvePat t = true ∨ stepsToFollowPat t = true))
    ∧ shouldEnterTutorialMode "This is a math problem" = true
    ∧ shouldEnterTutorialMode "Here is a cute drawing of a cat" = false := by
  refine ⟨?_, by decide, by decide⟩
  intro t
  simp [shouldEnterTutorialMode, educationalContentPatterns, List.any_eq_true]

/-- C7 counterexample: the fallback path returns lines verbatim, not
trimmed ("  hello  " stays padded), and the ordinal pattern is not
anchored at line start ("see 3. then go" yields the mid-line match
"3. then go" instead of the full non-blank line). -/
theorem c7_step_parsing_cex :
    learningSteps "  hello  " = ["  hello  "]
    ∧ ¬(∀ s ∈ learningSteps "  hello  ", jsTrim s = s)
    ∧ learningSteps "see 3. then go" = ["3. then go"]
    ∧ learningSteps "see 3. then go" ≠ ["see 3. then go"] := by
  decide

/-- C7 amended: if the reply contains at least one match of
`/\d+\.\s+[^\n]+/` (anywhere, not only at line starts), the learning
steps are exactly those matches in order, each trimmed; otherwise they
are the first up-to-5 non-blank lines verbatim (not trimmed). -/
theorem c7_step_parsing :
    ∀ t : String,
      (stepMatches t ≠ [] → learningSteps t = (stepMatches t).map jsTrim)
      ∧ (stepMatches t = [] →
          learningSteps t =
            ((splitNl t).filter (fun line => 0 < (jsTrim line).length)).take 5)
      ∧ learningSteps "1. Do X\n2. Do Y\n3. Do Z" = ["1. Do X", "2. Do Y", "3. Do Z"]
      ∧ learningSteps "a\nb\nc\nd\ne\nf" = ["a", "b", "c", "d", "e"] := by
  intro t
  refine ⟨?_, ?_, by decide, by decide⟩
  · intro h; simp [learningSteps, h]
  · intro h; simp [learningSteps, h]

/-- C7 witness at a reply with three ordinal steps. -/
theorem c7_step_parsing_witness :
    learningSteps "1. Do X\n2. Do Y\n3. Do Z" =
      (stepMatches "1. Do X\n2. Do Y\n3. Do Z").map jsTrim :=
  (c7_step_parsing "1. Do X\n2. Do Y\n3. Do Z").1 (by decide)

/-- C8 counterexample: a successful image-analysis request whose
secondary reply has six ordinal lines returns six learning steps — the
match path never caps the list at 5. -/
theorem c8_steps_bound_cex :
    analyzeImage (some "http://img") "This is a math problem"
        "1. a\n2. b\n3. c\n4. d\n5. e\n6. f" =
      ImageOutcome.success 200 ⟨true, "This is a math problem", true,
        "This is a math problem", ["1. a", "2. b", "3. c", "4. d", "5. e", "6. f"]⟩
    ∧ ¬((["1. a", "2. b", "3. c", "4. d", "5. e", "6. f"] : List String).length ≤ 5) := by
  decide

/-- C8 amended: the returned learning steps are empty when tutorial mode
is not detected, contain at most 5 entries whenever the ordinal scan
finds no match (fallback path), and otherwise contain exactly one entry
per ordinal match, with no upper bound. -/
theorem c8_steps_bound :
    ∀ analysis stepsText : String,
      (shouldEnterTutorialMode analysis = false →
        analyzeImageLearningSteps analysis stepsText = [])
      ∧ (stepMatches stepsText = [] →
          (analyzeImageLearningSteps analysis stepsText).length ≤ 5)
      ∧ (shouldEnterTutorialMode analysis = true → stepMatches stepsText ≠ [] →
          (analyzeImageLearningSteps analysis stepsText).length =
            (stepMatches stepsText).length) := by
  intro analysis stepsText
  refine ⟨?_, ?_, ?_⟩
  · intro h; simp [analyzeImageLearningSteps, h]
  · intro h
    by_cases ht : shouldEnterTutorialMode analysis
    · have hsteps : analyzeImageLearningSteps analysis stepsText =
          ((splitNl stepsText).filter (fun line => 0 < (jsTrim line).length)).take 5 := by
        simp [analyzeImageLearningSteps, ht, learningSteps, h]
      rw [hsteps, List.length_take]
      omega
    · simp [analyzeImageLearningSteps, ht]
  · intro ht h
    simp [analyzeImageLearningSteps, ht, learningSteps, h]

/-- C8 witness: a non-educational analysis yields no steps. -/
theorem c8_steps_bound_witness :
    analyzeImageLearningSteps "Here is a cute drawing of a cat" "1. a" = [] :=
  (c8_steps_bound "Here is a cute drawing of a cat" "1. a").1 (by decide)

/-- C9: A `/analyze` request missing studentResponse or context, and a
`/process` request missing message or subject, each return HTTP 400 with
`success: false`; the outcome is the bad-request constructor, which
records no provider prompt — no provider call is attempted. -/
theorem c9_validation_400 :
    ∀ (a : AnalyzeRequestBody) (p : ProcessRequestBody) (reply : ProviderMessage)
      (replyText : String),
      (a.studentResponse = none ∨ a.context = none →
        analyzeStudentResponse a reply =
          AnalyzeOutcome.badRequest 400
            ⟨false, "Student response and context are required"⟩)
      ∧ (p.message = none ∨ p.subject = none →
        processLearningResponse p replyText =
          ProcessOutcome.badRequest 400
            ⟨false, "Student message and subject are required"⟩) := by
  intro a p reply replyText
  constructor
  · rintro (h | h) <;> simp [analyzeStudentResponse, jsFalsy, h]
  · rintro (h | h) <;> simp [processLearningResponse, jsFalsy, h]

/-- C9 witness: concrete requests with the required fields missing. -/
theorem c9_validation_400_witness :
    analyzeStudentResponse ⟨none, some "ctx", none, none, none⟩
        (ProviderMessage.content "x") =
      AnalyzeOutcome.badRequest 400 ⟨false, "Student response and context are required"⟩
    ∧ processLearningResponse ⟨none, none, none, none, none, none, none⟩ "x" =
      ProcessOutcome.badRequest 400 ⟨false, "Student message and subject are required"⟩ :=
  ⟨(c9_validation_400 ⟨none, some "ctx", none, none, none⟩
      ⟨none, none, none, none, none, none, none⟩ (ProviderMessage.content "x") "x").1
      (Or.inl rfl),
   (c9_validation_400 ⟨none, some "ctx", none, none, none⟩
      ⟨none, none, none, none, none, none, none⟩ (ProviderMessage.content "x") "x").2
      (Or.inl rfl)⟩

/-- C10: When a `/process` request omits `response_type`, the
destructuring default makes it "hint", so the hint template is used —
which is a different string from the default template. -/
theorem c10_missing_response_type_hint :
    (∀ (b : ProcessRequestBody) (replyText : String),
      b.response_type = none → jsFalsy b.message = false → jsFalsy b.subject = false →
      ∃ uc body2, processLearningResponse b replyText =
        ProcessOutcome.success 200
          (buildProcessSystemPrompt "hint" (jsInterpS b.subject)
            (jsInterpI b.current_step) (jsInterpI b.total_steps) (jsInterpS b.context)
            (jsGE b.current_step b.total_steps))
          uc body2)
    ∧ (∀ sS cS tS xS : String, selectTemplate "hint" sS cS tS xS = hintTemplate sS cS tS xS)
    ∧ hintTemplate "math" "1" "3" "ctx" ≠ defaultTemplate "math" "1" "3" "ctx" := by
  refine ⟨?_, fun sS cS tS xS => by simp [selectTemplate], by decide⟩
  intro b replyText hrt hm hs
  have heq : processLearningResponse b replyText =
      ProcessOutcome.success 200
        (buildProcessSystemPrompt "hint" (jsInterpS b.subject) (jsInterpI b.current_step)
          (jsInterpI b.total_steps) (jsInterpS b.context) (jsGE b.current_step b.total_steps))
        ("Original question: \"" ++ jsInterpS b.user_query ++
          "\"\n\nStudent\x27s message: \"" ++ jsInterpS b.message ++ "\"")
        ⟨true, replyText, jsGE b.current_step b.total_steps,
          jsInterpS b.context ++ "\n\nStudent: " ++ jsInterpS b.message ++
            "\n\nTutor: " ++ replyText⟩ := by
    simp [processLearningResponse, hm, hs, hrt]
  exact ⟨_, _, heq⟩

/-- C10 witness: a request without `response_type`. -/
theorem c10_missing_response_type_hint_witness :
    ∃ uc body2, processLearningResponse
        ⟨some "hi", none, some "math", none, none, none, none⟩ "ok" =
      ProcessOutcome.success 200
        (buildProcessSystemPrompt "hint" "math" "undefined" "undefined" "undefined" false)
        uc body2 :=
  c10_missing_response_type_hint.1
    ⟨some "hi", none, some "math", none, none, none, none⟩ "ok" rfl
    (by decide) (by decide)
